import Mathlib

/-!
Shallow embedding of the presence-detection daemon `monitor-rs` (sources:
`src/messages.rs`, `src/config.rs`, `src/scanner.rs`, `src/manager.rs`,
`src/mqtt.rs`), together with proofs about the Presence Scanner state
machine, the announcement pipeline and the device-name sanitization.

Modelling conventions:
* `std::time::SystemTime` instants and `std::time::Duration` values are both
  modelled as `Nat` (an abstract count of time units; the code only ever
  compares and subtracts them).  `SystemTime::duration_since` /
  `SystemTime::elapsed` return `Err` exactly when the clock moved backwards,
  modelled by `duration_since` below returning `Except.error`.
* The `tokio` side effects of the scanner (sleeping between probes, invoking
  the `hcitool` probe, spawning the deferred re-check timer, sending a
  broadcast announcement) are reified as an explicit `Effect` trace.
* The external presence oracle (`hcitool name <MAC>`, run by
  `is_device_present` in `src/scanner.rs`) is a parameter
  `oracle : String → CommandOutput` giving, per MAC address, the process
  output observed; `is_device_present` itself (the parsing of that output
  into present / absent / error) is embedded from the source.
* `HashMap<String, DeviceState>` is modelled as an association list
  `List (String × DeviceState)`; the source has no defined iteration order
  (spec §9), the list order stands for whatever order the map iterates in.
* Rust `u8`/`u64` values are modelled as `Nat`; none of the verified code
  paths wrap around.
-/

/-- Commands consumed by the Presence Scanner (`StateAnnouncement` in
`src/messages.rs`).  `CheckStillPresent` is the spec's `RecheckDevice`. -/
inductive StateAnnouncement where
  | DeviceTrigger : StateAnnouncement
  | ScanArrive : StateAnnouncement
  | ScanDepart : StateAnnouncement
  | CheckStillPresent (deviceName : String) : StateAnnouncement
  deriving Repr, DecidableEq

/-- `DevicePresence` from `src/messages.rs`: `Present(confidence: u8)` or
`Absent`. -/
inductive DevicePresence where
  | Present (confidence : Nat) : DevicePresence
  | Absent : DevicePresence
  deriving Repr, DecidableEq

/-- `DeviceAnnouncement` from `src/messages.rs`. -/
structure DeviceAnnouncement where
  name : String
  mac_address : String
  presence : DevicePresence
  deriving Repr, DecidableEq

/-- `BleDevice` from `src/config.rs` (the `manufacturer` field is used only
by the Advertisement Filter, not by the scanner; it is omitted here). -/
structure BleDevice where
  address : String
  name : String
  deriving Repr, DecidableEq

/-- `ScanConfig` exactly as declared in `src/config.rs` lines 46–51: three
optional durations in seconds.  Note that it declares NO
`presence_timeout_seconds` field, although `Scanner::new` in
`src/scanner.rs` (line 71–73) reads one; see `ScannerScanConfig`. -/
structure ScanConfig where
  device_seen_debounce_seconds : Option Nat
  device_trigger_debounce_seconds : Option Nat
  interscan_delay_seconds : Option Nat
  deriving Repr, DecidableEq

/-- The configuration fields that `Scanner::new` (`src/scanner.rs` lines
58–76) actually reads from its `cfg` argument: the three fields of
`ScanConfig` plus `presence_timeout_seconds`, which the `ScanConfig`
declared in `src/config.rs` does not have — the two files are from
inconsistent revisions of the crate. -/
structure ScannerScanConfig where
  device_seen_debounce_seconds : Option Nat
  device_trigger_debounce_seconds : Option Nat
  interscan_delay_seconds : Option Nat
  presence_timeout_seconds : Option Nat
  deriving Repr, DecidableEq

/-- `DeviceSeen` from `src/scanner.rs`: `Seen(SystemTime)` or `NotSeen`. -/
inductive DeviceSeen where
  | Seen (t : Nat) : DeviceSeen
  | NotSeen : DeviceSeen
  deriving Repr, DecidableEq

/-- `DeviceState` from `src/scanner.rs`. -/
structure DeviceState where
  mac_address : String
  seen : DeviceSeen
  deriving Repr, DecidableEq

/-- The `Scanner` struct from `src/scanner.rs` (the broadcast channel
handles `rx`/`tx`/`announce_tx` are effects, reified in `Effect` below;
the remaining fields are the scan policy and the device registry). -/
structure Scanner where
  presence_timeout : Nat
  device_seen_debounce : Nat
  device_trigger_debounce : Nat
  interscan_delay : Nat
  device_map : List (String × DeviceState)
  deriving Repr, DecidableEq

/-- `Scanner::new` from `src/scanner.rs` lines 38–76: build the registry
from the configured devices (every device starts `NotSeen`) and derive the
four policy durations from the configuration, with defaults 60 s, 120 s,
5 s and 120 s respectively when unset (`unwrap_or`). -/
def Scanner.new (cfg : ScannerScanConfig) (devices : List BleDevice) : Scanner :=
  { device_map :=
      devices.map fun device =>
        (device.name, { mac_address := device.address, seen := DeviceSeen.NotSeen }),
    device_seen_debounce := cfg.device_seen_debounce_seconds.getD 60,
    device_trigger_debounce := cfg.device_trigger_debounce_seconds.getD 120,
    interscan_delay := cfg.interscan_delay_seconds.getD 5,
    presence_timeout := cfg.presence_timeout_seconds.getD 120 }

/-- `now.duration_since(earlier)` (and `earlier.elapsed()` evaluated at
`now`): `Ok(now − earlier)` when `earlier ≤ now`, `Err` when the clock moved
backwards (`earlier` is later than `now`). -/
def duration_since (now earlier : Nat) : Except Unit Nat :=
  if earlier ≤ now then Except.ok (now - earlier) else Except.error ()

/-- The observed output of the probe process (`std::process::Output` as used
by `is_device_present`): exit status and captured stdout. -/
structure CommandOutput where
  success : Bool
  stdout : String
  deriving Repr, DecidableEq

/-- `is_device_present` from `src/scanner.rs` lines 299–328: run
`hcitool name <MAC>` (the `oracle` parameter supplies its output); a
successful exit with empty stdout means absent, a successful exit with
non-empty stdout means present, a non-zero exit is an error. -/
def is_device_present (state : DeviceState) (oracle : String → CommandOutput) :
    Except String Bool :=
  let output := oracle state.mac_address
  if output.success then
    if output.stdout.isEmpty then Except.ok false else Except.ok true
  else
    Except.error "Command exited non-zero"

/-- Reified side effects of the scanner, in program order:
`sleep` is `tokio::time::sleep` (the inter-scan delay), `probe` is one
invocation of the presence oracle for a device, `schedule` is the spawned
timer task that sends the given command after the given delay
(`src/scanner.rs` lines 251–259), `announce` is a send on the announcement
channel. -/
inductive Effect where
  | sleep (duration : Nat) : Effect
  | probe (name : String) (mac_address : String) : Effect
  | schedule (delay : Nat) (command : StateAnnouncement) : Effect
  | announce (a : DeviceAnnouncement) : Effect
  deriving Repr, DecidableEq

/-- `announce_device` from `src/scanner.rs` lines 278–293: send one
`DeviceAnnouncement` on the announcement channel. -/
def announce_device (name : String) (mac_address : String)
    (presence : DevicePresence) : Effect :=
  Effect.announce { name := name, mac_address := mac_address, presence := presence }

/-- `scan_device` from `src/scanner.rs` lines 240–276: probe the device via
`is_device_present`.  Present → mark `Seen now`, spawn the deferred
`CheckStillPresent` re-check after `presence_timeout`, announce
`Present(100)`.  Absent → mark `NotSeen`, announce `Absent` (no re-check).
An oracle error propagates (`?`). -/
def scan_device (name : String) (device_info : DeviceState)
    (oracle : String → CommandOutput) (presence_timeout now : Nat) :
    Except String (DeviceState × List Effect) :=
  match is_device_present device_info oracle with
  | Except.error e => Except.error e
  | Except.ok true =>
      Except.ok ({ device_info with seen := DeviceSeen.Seen now },
        [Effect.probe name device_info.mac_address,
         Effect.schedule presence_timeout (StateAnnouncement.CheckStillPresent name),
         announce_device name device_info.mac_address (DevicePresence.Present 100)])
  | Except.ok false =>
      Except.ok ({ device_info with seen := DeviceSeen.NotSeen },
        [Effect.probe name device_info.mac_address,
         announce_device name device_info.mac_address DevicePresence.Absent])

/-- The per-device arrival-sweep guard from `src/scanner.rs` lines 174–200:
scan when the device was never seen, when the time since it was last seen
exceeds `device_seen_debounce`, or when that duration cannot be computed
(clock moved backwards — fail open). -/
def should_scan_arrival (seen : DeviceSeen) (now seen_debounce : Nat) : Bool :=
  match seen with
  | DeviceSeen.Seen t =>
      match duration_since now t with
      | Except.ok duration => if duration > seen_debounce then true else false
      | Except.error _ => true
  | DeviceSeen.NotSeen => true

/-- Loop body of `Scanner::scan_arrival` (`src/scanner.rs` lines 170–219),
recursing over the registry.  `idx` counts loop iterations (`nowAt idx` is
the `SystemTime::now()` reading of iteration `idx`); `scan_count` counts
probes run so far — a probe after the first is preceded by an
`interscan_delay` sleep.  A probe error aborts the sweep (`?`). -/
def scan_arrival_go (seen_debounce interscan_delay presence_timeout : Nat)
    (oracle : String → CommandOutput) (nowAt : Nat → Nat) :
    Nat → Nat → List (String × DeviceState) →
    Except String (List (String × DeviceState) × List Effect)
  | _, _, [] => Except.ok ([], [])
  | idx, scan_count, (name, device_info) :: rest =>
    let now := nowAt idx
    if should_scan_arrival device_info.seen now seen_debounce then
      let pre : List Effect :=
        if scan_count > 0 then [Effect.sleep interscan_delay] else []
      match scan_device name device_info oracle presence_timeout now with
      | Except.error e => Except.error e
      | Except.ok (updated, effects) =>
        match scan_arrival_go seen_debounce interscan_delay presence_timeout oracle nowAt
            (idx + 1) (scan_count + 1) rest with
        | Except.error e => Except.error e
        | Except.ok (rest_map, rest_effects) =>
          Except.ok ((name, updated) :: rest_map, pre ++ effects ++ rest_effects)
    else
      match scan_arrival_go seen_debounce interscan_delay presence_timeout oracle nowAt
          (idx + 1) scan_count rest with
      | Except.error e => Except.error e
      | Except.ok (rest_map, rest_effects) =>
        Except.ok ((name, device_info) :: rest_map, rest_effects)

/-- `Scanner::scan_arrival` from `src/scanner.rs` lines 170–219: the blanket
arrival sweep over the whole registry. -/
def Scanner.scan_arrival (s : Scanner) (oracle : String → CommandOutput)
    (nowAt : Nat → Nat) :
    Except String (List (String × DeviceState) × List Effect) :=
  scan_arrival_go s.device_seen_debounce s.interscan_delay s.presence_timeout
    oracle nowAt 0 0 s.device_map

/-- Loop body of `Scanner::scan_departure` (`src/scanner.rs` lines 221–237):
probe every device unconditionally; `scan_count` is the `enumerate` index,
every probe after the first is preceded by an `interscan_delay` sleep. -/
def scan_departure_go (interscan_delay presence_timeout : Nat)
    (oracle : String → CommandOutput) (nowAt : Nat → Nat) :
    Nat → List (String × DeviceState) →
    Except String (List (String × DeviceState) × List Effect)
  | _, [] => Except.ok ([], [])
  | scan_count, (name, device_info) :: rest =>
    let pre : List Effect :=
      if scan_count > 0 then [Effect.sleep interscan_delay] else []
    match scan_device name device_info oracle presence_timeout (nowAt scan_count) with
    | Except.error e => Except.error e
    | Except.ok (updated, effects) =>
      match scan_departure_go interscan_delay presence_timeout oracle nowAt
          (scan_count + 1) rest with
      | Except.error e => Except.error e
      | Except.ok (rest_map, rest_effects) =>
        Except.ok ((name, updated) :: rest_map, pre ++ effects ++ rest_effects)

/-- `Scanner::scan_departure` from `src/scanner.rs` lines 221–237. -/
def Scanner.scan_departure (s : Scanner) (oracle : String → CommandOutput)
    (nowAt : Nat → Nat) :
    Except String (List (String × DeviceState) × List Effect) :=
  scan_departure_go s.interscan_delay s.presence_timeout oracle nowAt 0 s.device_map

/-- `HashMap::get` on the association-list model: first entry with the
given key. -/
def lookup_device : List (String × DeviceState) → String → Option DeviceState
  | [], _ => none
  | (name, d) :: rest, target =>
      if name = target then some d else lookup_device rest target

/-- The write-back of `HashMap::get_mut` on the association-list model:
replace the first entry with the given key, leaving all others unchanged. -/
def set_device : List (String × DeviceState) → String → DeviceState →
    List (String × DeviceState)
  | [], _, _ => []
  | (name, d) :: rest, target, updated =>
      if name = target then (name, updated) :: rest
      else (name, d) :: set_device rest target updated

/-- `Scanner::check_still_present` from `src/scanner.rs` lines 149–168:
if the named device is in the registry, probe exactly that device (no
debounce check of any kind); otherwise log and return `Ok(())` so the event
loop is not aborted. -/
def Scanner.check_still_present (s : Scanner) (device_name : String)
    (oracle : String → CommandOutput) (now : Nat) :
    Except String (List (String × DeviceState) × List Effect) :=
  match lookup_device s.device_map device_name with
  | some device_info =>
    match scan_device device_name device_info oracle s.presence_timeout now with
    | Except.error e => Except.error e
    | Except.ok (updated, effects) =>
      Except.ok (set_device s.device_map device_name updated, effects)
  | none => Except.ok (s.device_map, [])

/-- One result of `self.rx.recv().await` in `Scanner::run`: a message, a
`Closed` error or a `Lagged` error. -/
inductive RecvResult where
  | msg (m : StateAnnouncement) : RecvResult
  | closed : RecvResult
  | lagged : RecvResult
  deriving Repr, DecidableEq

/-- What one iteration of the `Scanner::run` loop does: keep looping with an
updated scanner / `last_trigger` and a trace of effects, break out of the
loop normally (channel closed), or abort the whole loop with an error. -/
inductive StepOutcome where
  | next (s : Scanner) (last_trigger : Option Nat) (effects : List Effect) : StepOutcome
  | stop : StepOutcome
  | abort (err : String) : StepOutcome
  deriving Repr, DecidableEq

/-- `anyhow`'s `.context(ctx)`: wrap an error message. -/
def with_context (ctx msg : String) : String :=
  ctx ++ ": " ++ msg

/-- One iteration of the `Scanner::run` loop (`src/scanner.rs` lines
78–147).  `now` is the `SystemTime::now()` reading of this iteration,
`nowAt` the per-device readings inside a sweep.  `ScanArrive`/`ScanDepart`
set `last_trigger` and sweep unconditionally; `DeviceTrigger` sweeps only
when there is no previous trigger, the elapsed time since it exceeds
`device_trigger_debounce`, or the elapsed time cannot be computed;
`CheckStillPresent` re-probes one device.  A handler error aborts the loop
(`?` with an `anyhow` context); `Lagged` is logged and skipped; `Closed`
breaks the loop. -/
def run_step (s : Scanner) (last_trigger : Option Nat) (recv : RecvResult)
    (oracle : String → CommandOutput) (now : Nat) (nowAt : Nat → Nat) :
    StepOutcome :=
  match recv with
  | RecvResult.msg m =>
    match m with
    | StateAnnouncement.CheckStillPresent device_name =>
      match s.check_still_present device_name oracle now with
      | Except.error e => StepOutcome.abort (with_context "Failed to check presence" e)
      | Except.ok (m2, effects) =>
        StepOutcome.next { s with device_map := m2 } last_trigger effects
    | StateAnnouncement.ScanArrive =>
      match s.scan_arrival oracle nowAt with
      | Except.error e => StepOutcome.abort (with_context "Failed to scan arrivals" e)
      | Except.ok (m2, effects) =>
        StepOutcome.next { s with device_map := m2 } (some now) effects
    | StateAnnouncement.ScanDepart =>
      match s.scan_departure oracle nowAt with
      | Except.error e => StepOutcome.abort (with_context "Failed to scan departure" e)
      | Except.ok (m2, effects) =>
        StepOutcome.next { s with device_map := m2 } (some now) effects
    | StateAnnouncement.DeviceTrigger =>
      let should_scan_devices :=
        match last_trigger.map (fun t => duration_since now t) with
        | some (Except.ok duration) =>
          if duration > s.device_trigger_debounce then true else false
        | some (Except.error _) => true
        | none => true
      if should_scan_devices then
        match s.scan_arrival oracle nowAt with
        | Except.error e =>
          StepOutcome.abort (with_context "Failed to scan for device trigger" e)
        | Except.ok (m2, effects) =>
          StepOutcome.next { s with device_map := m2 } (some now) effects
      else
        StepOutcome.next s last_trigger []
  | RecvResult.closed => StepOutcome.stop
  | RecvResult.lagged => StepOutcome.next s last_trigger []

/-- The `Scanner::run` loop over a finite schedule of channel receptions
(each paired with its clock readings).  The loop ends normally when the
channel closes or the schedule is exhausted, and aborts — leaving the rest
of the schedule unprocessed — when a handler propagates an error. -/
def run_loop (oracle : String → CommandOutput) :
    Scanner → Option Nat → List (RecvResult × Nat × (Nat → Nat)) →
    Except String (List Effect)
  | _, _, [] => Except.ok []
  | s, last_trigger, (recv, now, nowAt) :: rest =>
    match run_step s last_trigger recv oracle now nowAt with
    | StepOutcome.abort e => Except.error e
    | StepOutcome.stop => Except.ok []
    | StepOutcome.next s2 lt2 effects =>
      match run_loop oracle s2 lt2 rest with
      | Except.error e => Except.error e
      | Except.ok more => Except.ok (effects ++ more)

/-- One iteration of `announce_scan_results` (`src/manager.rs` lines
101–127): the `(name, mac, confidence)` triple passed outward to
`MqttClient::announce_device` for a received `DeviceAnnouncement` —
confidence `0` for `Absent`, the carried confidence for `Present`. -/
def announce_scan_results_step (msg : DeviceAnnouncement) : String × String × Nat :=
  match msg with
  | { presence := DevicePresence.Absent, mac_address := mac_address, name := name } =>
      (name, mac_address, 0)
  | { presence := DevicePresence.Present confidence, mac_address := mac_address,
      name := name } =>
      (name, mac_address, confidence)

/-- `sanitize_name` from `src/mqtt.rs` lines 145–151: lowercase the name and
replace every non-alphanumeric character with an underscore.  The character
classes (`to_lowercase`, `is_alphanumeric`) are modelled by Lean's
ASCII-range `Char.toLower` / `Char.isAlphanum`, which agree with Rust on
the basic-latin range. -/
def sanitize_name (name : String) : String :=
  String.mk ((name.data.map Char.toLower).map fun c =>
    if c.isAlphanum then c else Char.ofNat 95)

/-- The outward MQTT payload built by `MqttClient::announce_device`
(`src/mqtt.rs` lines 110–137): `DeviceMqttMessage` with `retained` always
false. -/
structure DeviceMqttMessage where
  name : String
  mac_address : String
  confidence : Nat
  retained : Bool
  deriving Repr, DecidableEq

/-- An outward MQTT publication: topic and payload. -/
structure MqttPublish where
  topic : String
  payload : DeviceMqttMessage
  deriving Repr, DecidableEq

/-- `MqttClient::announce_device` from `src/mqtt.rs` lines 110–137: publish
the payload on `<topic_path>/<publisher_id>/<sanitized name>`. -/
def mqtt_announce_device (topic_path publisher_id : String)
    (name : String) (mac_address : String) (confidence : Nat) : MqttPublish :=
  { topic := topic_path ++ "/" ++ publisher_id ++ "/" ++ sanitize_name name,
    payload := { name := name, mac_address := mac_address,
                 confidence := confidence, retained := false } }

/-- Composition of one Announcer iteration with the MQTT publish it makes
(`announce_scan_results` in `src/manager.rs` calling
`MqttClient::announce_device`): the outward publication for one received
`DeviceAnnouncement`. -/
def outward_publish (topic_path publisher_id : String)
    (msg : DeviceAnnouncement) : MqttPublish :=
  match announce_scan_results_step msg with
  | (name, mac_address, confidence) =>
      mqtt_announce_device topic_path publisher_id name mac_address confidence

/-- Projection of an effect trace: the devices probed, in order. -/
def probe_list : List Effect → List (String × String)
  | [] => []
  | Effect.probe n m :: rest => (n, m) :: probe_list rest
  | Effect.sleep _ :: rest => probe_list rest
  | Effect.schedule _ _ :: rest => probe_list rest
  | Effect.announce _ :: rest => probe_list rest

/-- How many probes of the named device a trace contains. -/
def probe_count (effects : List Effect) (name : String) : Nat :=
  (probe_list effects).countP fun p => decide (p.1 = name)

/-- Projection of an effect trace: the announcements sent, in order. -/
def announce_list : List Effect → List DeviceAnnouncement
  | [] => []
  | Effect.announce a :: rest => a :: announce_list rest
  | Effect.probe _ _ :: rest => announce_list rest
  | Effect.sleep _ :: rest => announce_list rest
  | Effect.schedule _ _ :: rest => announce_list rest

/-- Projection of an effect trace: the deferred commands scheduled, with
their delays, in order. -/
def schedule_list : List Effect → List (Nat × StateAnnouncement)
  | [] => []
  | Effect.schedule d c :: rest => (d, c) :: schedule_list rest
  | Effect.probe _ _ :: rest => schedule_list rest
  | Effect.sleep _ :: rest => schedule_list rest
  | Effect.announce _ :: rest => schedule_list rest

/-- Keep only the pacing-relevant events of a trace: probes and sleeps. -/
def is_timeline_event : Effect → Bool
  | Effect.probe _ _ => true
  | Effect.sleep _ => true
  | Effect.schedule _ _ => false
  | Effect.announce _ => false

/-- The probe/sleep skeleton of an effect trace. -/
def timeline (effects : List Effect) : List Effect :=
  effects.filter is_timeline_event

/-- The name `"Test's Device 123"` from the repository's own
`test_sanitize_name` test (`src/mqtt.rs` lines 153–161), built character by
character (codepoint 39 is the apostrophe). -/
def test_device_name : String :=
  String.mk ['T', 'e', 's', 't', Char.ofNat 39, 's', ' ',
    'D', 'e', 'v', 'i', 'c', 'e', ' ', '1', '2', '3']

/- Concrete fixtures used by the witness and counterexample theorems. -/

/-- A MAC address used by the concrete fixtures. -/
def ex_mac : String := "AA:BB:CC:DD:EE:FF"

/-- A device state that has never been seen. -/
def ex_state_not_seen : DeviceState :=
  { mac_address := ex_mac, seen := DeviceSeen.NotSeen }

/-- An oracle whose probe always succeeds with non-empty output (device
present). -/
def ex_oracle_present : String → CommandOutput :=
  fun _ => { success := true, stdout := "Phone" }

/-- An oracle whose probe always succeeds with empty output (device
absent). -/
def ex_oracle_absent : String → CommandOutput :=
  fun _ => { success := true, stdout := "" }

/-- An oracle whose probe always exits non-zero (execution error). -/
def ex_oracle_fail : String → CommandOutput :=
  fun _ => { success := false, stdout := "" }

/-- A constant clock: every reading is 1000. -/
def ex_now_at : Nat → Nat := fun _ => 1000

/-- A one-device configured registry. -/
def ex_devices : List BleDevice := [{ address := ex_mac, name := "phone" }]

/-- A configuration with every duration unset (all defaults apply). -/
def ex_cfg_unset : ScannerScanConfig :=
  { device_seen_debounce_seconds := none,
    device_trigger_debounce_seconds := none,
    interscan_delay_seconds := none,
    presence_timeout_seconds := none }

/-- The scanner built from the default configuration and the one-device
registry. -/
def ex_scanner : Scanner := Scanner.new ex_cfg_unset ex_devices

/-- The spec §8 scenario registry: device `a` never seen, device `b` seen
5 time units before the (constant) clock reading 1000, `deviceSeenDebounce`
60, `interscanDelay` 5. -/
def ex_scanner_two : Scanner :=
  { presence_timeout := 120, device_seen_debounce := 60,
    device_trigger_debounce := 120, interscan_delay := 5,
    device_map :=
      [("a", { mac_address := "AA:BB:CC:DD:EE:01", seen := DeviceSeen.NotSeen }),
       ("b", { mac_address := "AA:BB:CC:DD:EE:02", seen := DeviceSeen.Seen 995 })] }

/-- A scanner whose single device carries a last-seen time in the future of
every clock reading of `ex_now_at` (the system clock moved backwards). -/
def ex_scanner_future : Scanner :=
  { presence_timeout := 120, device_seen_debounce := 60,
    device_trigger_debounce := 120, interscan_delay := 5,
    device_map :=
      [("c", { mac_address := "AA:BB:CC:DD:EE:03", seen := DeviceSeen.Seen 2000 })] }

/-- The devices an arrival sweep starting at iteration `idx` probes, with
their MAC addresses, in registry order: exactly the entries whose
`should_scan_arrival` guard passes at their iteration's clock reading. -/
def arrival_probe_set (seen_debounce : Nat) (nowAt : Nat → Nat) :
    Nat → List (String × DeviceState) → List (String × String)
  | _, [] => []
  | idx, (name, d) :: rest =>
    if should_scan_arrival d.seen (nowAt idx) seen_debounce then
      (name, d.mac_address) :: arrival_probe_set seen_debounce nowAt (idx + 1) rest
    else
      arrival_probe_set seen_debounce nowAt (idx + 1) rest

/-- Spec-side description (following the claim's words, to be compared with
the embedded `Scanner.scan_departure`) of a departure sweep's probe/sleep
timeline: probe every registered device exactly once in registry order,
consecutive probes separated by one `interscan_delay` sleep, no delay
before the first probe. -/
def spec_departure_timeline (interscan_delay : Nat) :
    List (String × DeviceState) → List Effect
  | [] => []
  | (name, d) :: rest =>
    Effect.probe name d.mac_address ::
      (rest.map fun p =>
        [Effect.sleep interscan_delay, Effect.probe p.1 p.2.mac_address]).flatten

/-- The number of entries of an association list carrying the given key. -/
def count_key (l : List (String × String)) (name : String) : Nat :=
  l.countP fun p => decide (p.1 = name)

/- Character-level lemmas for the sanitization proof. -/

/-- Converting a valid (basic-plane) codepoint to a `Char` and back is the
identity. -/
theorem char_ofNat_toNat (n : Nat) (h : n < 55296) : (Char.ofNat n).toNat = n := by
  have hv : n.isValidChar := Or.inl h
  simp [Char.ofNat, hv, Char.ofNatAux, Char.toNat, UInt32.toNat]

/-- Defining equation of `Char.toLower`. -/
theorem char_toLower_eq (c : Char) :
    Char.toLower c =
      if c.toNat >= 65 ∧ c.toNat <= 90 then Char.ofNat (c.toNat + 32) else c := rfl

/-- ASCII lowercasing is idempotent. -/
theorem char_toLower_toLower (c : Char) :
    Char.toLower (Char.toLower c) = Char.toLower c := by
  rw [char_toLower_eq c]
  by_cases h : c.toNat >= 65 ∧ c.toNat <= 90
  · rw [if_pos h, char_toLower_eq, char_ofNat_toNat _ (by omega), if_neg (by omega)]
  · rw [if_neg h, char_toLower_eq, if_neg h]

/-- One sanitization step applied to an already-sanitized character is the
identity. -/
theorem san_char_step (c : Char) :
    (if (Char.toLower (if (Char.toLower c).isAlphanum then Char.toLower c
          else Char.ofNat 95)).isAlphanum
      then Char.toLower (if (Char.toLower c).isAlphanum then Char.toLower c
          else Char.ofNat 95)
      else Char.ofNat 95)
    = (if (Char.toLower c).isAlphanum then Char.toLower c else Char.ofNat 95) := by
  by_cases h : (Char.toLower c).isAlphanum = true
  · simp only [h, if_true, char_toLower_toLower c, h]
  · simp only [h, Bool.false_eq_true, if_false]
    decide

/-- C9: the device-name sanitization (`sanitize_name`, `src/mqtt.rs`) is
total over strings (it is a Lean function defined on all of `String`) and
idempotent, and it maps the repository's own test input
`"Test's Device 123"` to `"test_s_device_123"` — lowercase the name, then
replace every non-alphanumeric character with an underscore. -/
theorem C9_sanitize_total_idempotent :
    (∀ s : String, sanitize_name (sanitize_name s) = sanitize_name s) ∧
    sanitize_name test_device_name = "test_s_device_123" := by
  constructor
  · intro s
    unfold sanitize_name
    refine congrArg String.mk ?_
    show ((((s.data.map Char.toLower).map fun c =>
        if c.isAlphanum then c else Char.ofNat 95).map Char.toLower).map fun c =>
        if c.isAlphanum then c else Char.ofNat 95)
      = ((s.data.map Char.toLower).map fun c =>
        if c.isAlphanum then c else Char.ofNat 95)
    induction s.data with
    | nil => rfl
    | cons c cs ih =>
      simp only [List.map_cons, List.cons.injEq]
      exact ⟨san_char_step c, ih⟩
  · decide

/-- C6: all four scan-policy durations of the `Scanner` built by
`Scanner::new` are derived from the configuration, each falling back to its
default (60 s seen-debounce, 120 s trigger-debounce, 5 s inter-scan delay,
120 s presence timeout) when unset.  This is proved against the fields
`Scanner::new` in `src/scanner.rs` reads; note that the `ScanConfig`
declared in `src/config.rs` carries only the first three of them (see
`ScannerScanConfig`). -/
theorem C6_scan_policy_from_config (cfg : ScannerScanConfig) (devices : List BleDevice) :
    (Scanner.new cfg devices).device_seen_debounce
        = cfg.device_seen_debounce_seconds.getD 60 ∧
    (Scanner.new cfg devices).device_trigger_debounce
        = cfg.device_trigger_debounce_seconds.getD 120 ∧
    (Scanner.new cfg devices).interscan_delay
        = cfg.interscan_delay_seconds.getD 5 ∧
    (Scanner.new cfg devices).presence_timeout
        = cfg.presence_timeout_seconds.getD 120 :=
  ⟨rfl, rfl, rfl, rfl⟩

/-- C3: for every completed probe (`scan_device`, `src/scanner.rs` lines
240–276): if the oracle reports present, the device's last-seen time is set
to `now`, a `Present(100)` announcement is emitted, and exactly one
deferred `CheckStillPresent` command (the spec's `RecheckDevice`) is
scheduled with delay `presence_timeout`; if the oracle reports absent, the
last-seen time is cleared, an `Absent` announcement is emitted, and no
re-check is scheduled. -/
theorem C3_probe_protocol (name : String) (device_info : DeviceState)
    (oracle : String → CommandOutput) (presence_timeout now : Nat) :
    (is_device_present device_info oracle = Except.ok true →
      ∃ d2 effects,
        scan_device name device_info oracle presence_timeout now
          = Except.ok (d2, effects) ∧
        d2.seen = DeviceSeen.Seen now ∧
        announce_list effects =
          [{ name := name, mac_address := device_info.mac_address,
             presence := DevicePresence.Present 100 }] ∧
        schedule_list effects =
          [(presence_timeout, StateAnnouncement.CheckStillPresent name)]) ∧
    (is_device_present device_info oracle = Except.ok false →
      ∃ d2 effects,
        scan_device name device_info oracle presence_timeout now
          = Except.ok (d2, effects) ∧
        d2.seen = DeviceSeen.NotSeen ∧
        announce_list effects =
          [{ name := name, mac_address := device_info.mac_address,
             presence := DevicePresence.Absent }] ∧
        schedule_list effects = []) := by
  constructor
  · intro h
    refine ⟨{ device_info with seen := DeviceSeen.Seen now },
      [Effect.probe name device_info.mac_address,
       Effect.schedule presence_timeout (StateAnnouncement.CheckStillPresent name),
       announce_device name device_info.mac_address (DevicePresence.Present 100)],
      ?_, rfl, rfl, rfl⟩
    unfold scan_device
    rw [h]
  · intro h
    refine ⟨{ device_info with seen := DeviceSeen.NotSeen },
      [Effect.probe name device_info.mac_address,
       announce_device name device_info.mac_address DevicePresence.Absent],
      ?_, rfl, rfl, rfl⟩
    unfold scan_device
    rw [h]

/-- Witness for C3: the concrete present and absent probes of the fixture
device. -/
theorem C3_probe_protocol_witness :
    (∃ d2 effects,
        scan_device "phone" ex_state_not_seen ex_oracle_present 120 1000
          = Except.ok (d2, effects) ∧
        d2.seen = DeviceSeen.Seen 1000 ∧
        announce_list effects =
          [{ name := "phone", mac_address := ex_state_not_seen.mac_address,
             presence := DevicePresence.Present 100 }] ∧
        schedule_list effects =
          [(120, StateAnnouncement.CheckStillPresent "phone")]) ∧
    (∃ d2 effects,
        scan_device "phone" ex_state_not_seen ex_oracle_absent 120 1000
          = Except.ok (d2, effects) ∧
        d2.seen = DeviceSeen.NotSeen ∧
        announce_list effects =
          [{ name := "phone", mac_address := ex_state_not_seen.mac_address,
             presence := DevicePresence.Absent }] ∧
        schedule_list effects = []) :=
  ⟨(C3_probe_protocol "phone" ex_state_not_seen ex_oracle_present 120 1000).1 (by rfl),
   (C3_probe_protocol "phone" ex_state_not_seen ex_oracle_absent 120 1000).2 (by rfl)⟩

/-- Trace projections distribute over concatenation. -/
theorem timeline_append (a b : List Effect) :
    timeline (a ++ b) = timeline a ++ timeline b := by
  simp [timeline, List.filter_append]

/-- Probe projection distributes over concatenation. -/
theorem probe_list_append (a b : List Effect) :
    probe_list (a ++ b) = probe_list a ++ probe_list b := by
  induction a with
  | nil => rfl
  | cons e rest ih => cases e <;> simp [probe_list, ih]

/-- Restricting a trace to probes and sleeps keeps all its probes. -/
theorem probe_list_timeline (effects : List Effect) :
    probe_list (timeline effects) = probe_list effects := by
  induction effects with
  | nil => rfl
  | cons e rest ih =>
    cases e <;>
      simp [timeline, List.filter_cons, is_timeline_event, probe_list, ih] <;>
      simpa [timeline] using ih

/-- Shape of one successful probe's effect trace: exactly one probe event,
for the probed device, and no sleeps. -/
theorem scan_device_trace (name : String) (device_info : DeviceState)
    (oracle : String → CommandOutput) (presence_timeout now : Nat)
    (d2 : DeviceState) (effects : List Effect)
    (hok : scan_device name device_info oracle presence_timeout now
      = Except.ok (d2, effects)) :
    timeline effects = [Effect.probe name device_info.mac_address] ∧
    probe_list effects = [(name, device_info.mac_address)] := by
  unfold scan_device at hok
  cases hip : is_device_present device_info oracle with
  | error e => rw [hip] at hok; cases hok
  | ok b =>
    rw [hip] at hok
    cases b with
    | true =>
      simp only [Except.ok.injEq, Prod.mk.injEq] at hok
      obtain ⟨h1, h2⟩ := hok
      subst h2
      exact ⟨rfl, rfl⟩
    | false =>
      simp only [Except.ok.injEq, Prod.mk.injEq] at hok
      obtain ⟨h1, h2⟩ := hok
      subst h2
      exact ⟨rfl, rfl⟩

/-- Unfolding helper: the tail of the spec-side departure timeline. -/
theorem spec_departure_shift (interscan_delay : Nat)
    (rest : List (String × DeviceState)) :
    (if rest ≠ [] then [Effect.sleep interscan_delay] else [])
      ++ spec_departure_timeline interscan_delay rest
    = (rest.map fun p =>
        [Effect.sleep interscan_delay, Effect.probe p.1 p.2.mac_address]).flatten := by
  cases rest with
  | nil => rfl
  | cons hd tl => simp [spec_departure_timeline]

/-- The probe/sleep skeleton of the departure-sweep loop, for any starting
`scan_count`: one leading sleep when a probe already ran, then the
spec-side timeline of the remaining registry. -/
theorem scan_departure_go_timeline (interscan_delay presence_timeout : Nat)
    (oracle : String → CommandOutput) (nowAt : Nat → Nat) :
    ∀ (devs : List (String × DeviceState)) (scan_count : Nat)
      (m2 : List (String × DeviceState)) (effects : List Effect),
      scan_departure_go interscan_delay presence_timeout oracle nowAt scan_count devs
        = Except.ok (m2, effects) →
      timeline effects =
        (if scan_count > 0 ∧ devs ≠ [] then [Effect.sleep interscan_delay] else [])
          ++ spec_departure_timeline interscan_delay devs := by
  intro devs
  induction devs with
  | nil =>
    intro scan_count m2 effects hok
    simp only [scan_departure_go, Except.ok.injEq, Prod.mk.injEq] at hok
    obtain ⟨h1, h2⟩ := hok
    subst h2
    simp [spec_departure_timeline, timeline]
  | cons hd rest ih =>
    obtain ⟨name, d⟩ := hd
    intro scan_count m2 effects hok
    simp only [scan_departure_go] at hok
    cases hs : scan_device name d oracle presence_timeout (nowAt scan_count) with
    | error e => rw [hs] at hok; cases hok
    | ok pr =>
      obtain ⟨upd, effs⟩ := pr
      rw [hs] at hok
      cases hr : scan_departure_go interscan_delay presence_timeout oracle nowAt
          (scan_count + 1) rest with
      | error e => rw [hr] at hok; cases hok
      | ok pr2 =>
        obtain ⟨rm, reffs⟩ := pr2
        rw [hr] at hok
        simp only [Except.ok.injEq, Prod.mk.injEq] at hok
        obtain ⟨h1, h2⟩ := hok
        subst h2
        have ht := (scan_device_trace name d oracle presence_timeout (nowAt scan_count)
          upd effs hs).1
        have hih := ih (scan_count + 1) rm reffs hr
        rw [timeline_append, timeline_append, ht, hih]
        have hsh := spec_departure_shift interscan_delay rest
        by_cases hc : scan_count > 0
        · simp only [hc, if_true, gt_iff_lt, Nat.succ_pos, true_and, ne_eq,
            reduceCtorEq, not_false_eq_true, if_pos]
          simp only [spec_departure_timeline, ← hsh]
          simp [timeline, is_timeline_event]
        · simp only [hc, if_false, gt_iff_lt, Nat.succ_pos, true_and]
          simp only [spec_departure_timeline, ← hsh]
          simp [timeline, is_timeline_event, hc]

/-- Unfolding helper: one step of the spec-side departure timeline. -/
theorem spec_departure_cons (interscan_delay : Nat) (name : String)
    (d : DeviceState) (tl : List (String × DeviceState)) :
    spec_departure_timeline interscan_delay ((name, d) :: tl)
      = Effect.probe name d.mac_address ::
        ((if tl ≠ [] then [Effect.sleep interscan_delay] else [])
          ++ spec_departure_timeline interscan_delay tl) := by
  rw [spec_departure_shift]
  rfl

/-- Probes of the spec-side departure timeline: every device once, in
order. -/
theorem probe_list_spec_departure (interscan_delay : Nat)
    (devs : List (String × DeviceState)) :
    probe_list (spec_departure_timeline interscan_delay devs)
      = devs.map fun p => (p.1, p.2.mac_address) := by
  induction devs with
  | nil => rfl
  | cons hd tl ih =>
    obtain ⟨name, d⟩ := hd
    rw [spec_departure_cons]
    simp only [probe_list, probe_list_append]
    rw [ih]
    cases tl <;> simp [probe_list]

/-- C5: a blanket departure sweep (`Scanner::scan_departure`,
`src/scanner.rs` lines 221–237) probes every registered device exactly
once, in registry order, regardless of its last-seen state; consecutive
probes are separated by one `interscan_delay` sleep, with no delay before
the first probe. -/
theorem C5_departure_sweep (s : Scanner) (oracle : String → CommandOutput)
    (nowAt : Nat → Nat) (m2 : List (String × DeviceState)) (effects : List Effect)
    (hok : s.scan_departure oracle nowAt = Except.ok (m2, effects)) :
    probe_list effects = (s.device_map.map fun p => (p.1, p.2.mac_address)) ∧
    timeline effects = spec_departure_timeline s.interscan_delay s.device_map := by
  have h := scan_departure_go_timeline s.interscan_delay s.presence_timeout oracle nowAt
    s.device_map 0 m2 effects hok
  simp only [gt_iff_lt, Nat.lt_irrefl, false_and, if_false, List.nil_append] at h
  refine ⟨?_, h⟩
  rw [← probe_list_timeline effects, h, probe_list_spec_departure]

/-- Witness for C5: the spec §8 two-device scenario (device `a` never seen,
device `b` seen 5 units ago) under a `ScanDepart`: both devices probed, in
order, one 5-unit sleep between them. -/
theorem C5_departure_sweep_witness :
    probe_list
        [Effect.probe "a" "AA:BB:CC:DD:EE:01",
         Effect.schedule 120 (StateAnnouncement.CheckStillPresent "a"),
         Effect.announce { name := "a", mac_address := "AA:BB:CC:DD:EE:01",
                           presence := DevicePresence.Present 100 },
         Effect.sleep 5,
         Effect.probe "b" "AA:BB:CC:DD:EE:02",
         Effect.schedule 120 (StateAnnouncement.CheckStillPresent "b"),
         Effect.announce { name := "b", mac_address := "AA:BB:CC:DD:EE:02",
                           presence := DevicePresence.Present 100 }]
      = (ex_scanner_two.device_map.map fun p => (p.1, p.2.mac_address)) ∧
    timeline
        [Effect.probe "a" "AA:BB:CC:DD:EE:01",
         Effect.schedule 120 (StateAnnouncement.CheckStillPresent "a"),
         Effect.announce { name := "a", mac_address := "AA:BB:CC:DD:EE:01",
                           presence := DevicePresence.Present 100 },
         Effect.sleep 5,
         Effect.probe "b" "AA:BB:CC:DD:EE:02",
         Effect.schedule 120 (StateAnnouncement.CheckStillPresent "b"),
         Effect.announce { name := "b", mac_address := "AA:BB:CC:DD:EE:02",
                           presence := DevicePresence.Present 100 }]
      = spec_departure_timeline ex_scanner_two.interscan_delay ex_scanner_two.device_map :=
  C5_departure_sweep ex_scanner_two ex_oracle_present ex_now_at
    [("a", { mac_address := "AA:BB:CC:DD:EE:01", seen := DeviceSeen.Seen 1000 }),
     ("b", { mac_address := "AA:BB:CC:DD:EE:02", seen := DeviceSeen.Seen 1000 })]
    [Effect.probe "a" "AA:BB:CC:DD:EE:01",
     Effect.schedule 120 (StateAnnouncement.CheckStillPresent "a"),
     Effect.announce { name := "a", mac_address := "AA:BB:CC:DD:EE:01",
                       presence := DevicePresence.Present 100 },
     Effect.sleep 5,
     Effect.probe "b" "AA:BB:CC:DD:EE:02",
     Effect.schedule 120 (StateAnnouncement.CheckStillPresent "b"),
     Effect.announce { name := "b", mac_address := "AA:BB:CC:DD:EE:02",
                       presence := DevicePresence.Present 100 }]
    (by rfl)

/-- The probes of an arrival sweep are exactly the registry entries whose
guard passes, with the iteration clock threaded through. -/
theorem scan_arrival_go_probes (seen_debounce interscan_delay presence_timeout : Nat)
    (oracle : String → CommandOutput) (nowAt : Nat → Nat) :
    ∀ (devs : List (String × DeviceState)) (idx scan_count : Nat)
      (m2 : List (String × DeviceState)) (effects : List Effect),
      scan_arrival_go seen_debounce interscan_delay presence_timeout oracle nowAt
          idx scan_count devs = Except.ok (m2, effects) →
      probe_list effects = arrival_probe_set seen_debounce nowAt idx devs := by
  intro devs
  induction devs with
  | nil =>
    intro idx scan_count m2 effects hok
    simp only [scan_arrival_go, Except.ok.injEq, Prod.mk.injEq] at hok
    obtain ⟨h1, h2⟩ := hok
    subst h2
    rfl
  | cons hd rest ih =>
    obtain ⟨name, d⟩ := hd
    intro idx scan_count m2 effects hok
    simp only [scan_arrival_go] at hok
    by_cases hscan : should_scan_arrival d.seen (nowAt idx) seen_debounce = true
    · rw [if_pos hscan] at hok
      cases hs : scan_device name d oracle presence_timeout (nowAt idx) with
      | error e => rw [hs] at hok; cases hok
      | ok pr =>
        obtain ⟨upd, effs⟩ := pr
        rw [hs] at hok
        cases hr : scan_arrival_go seen_debounce interscan_delay presence_timeout oracle
            nowAt (idx + 1) (scan_count + 1) rest with
        | error e => rw [hr] at hok; cases hok
        | ok pr2 =>
          obtain ⟨rm, reffs⟩ := pr2
          rw [hr] at hok
          simp only [Except.ok.injEq, Prod.mk.injEq] at hok
          obtain ⟨h1, h2⟩ := hok
          subst h2
          rw [probe_list_append, probe_list_append,
            (scan_device_trace name d oracle presence_timeout (nowAt idx) upd effs hs).2,
            ih (idx + 1) (scan_count + 1) rm reffs hr]
          have hpre : probe_list (if scan_count > 0
              then [Effect.sleep interscan_delay] else []) = [] := by
            by_cases hc : scan_count > 0 <;> simp [hc, probe_list]
          rw [hpre]
          simp [arrival_probe_set, hscan]
    · rw [if_neg hscan] at hok
      cases hr : scan_arrival_go seen_debounce interscan_delay presence_timeout oracle
          nowAt (idx + 1) scan_count rest with
      | error e => rw [hr] at hok; cases hok
      | ok pr2 =>
        obtain ⟨rm, reffs⟩ := pr2
        rw [hr] at hok
        simp only [Except.ok.injEq, Prod.mk.injEq] at hok
        obtain ⟨h1, h2⟩ := hok
        subst h2
        rw [ih (idx + 1) scan_count rm reffs hr]
        simp [arrival_probe_set, hscan]

/-- A key that is not in the registry is never probed by an arrival
sweep. -/
theorem arrival_probe_set_count_zero (seen_debounce : Nat) (nowAt : Nat → Nat) :
    ∀ (devs : List (String × DeviceState)) (idx : Nat) (name : String),
      name ∉ devs.map Prod.fst →
      count_key (arrival_probe_set seen_debounce nowAt idx devs) name = 0 := by
  intro devs
  induction devs with
  | nil => intro idx name _; rfl
  | cons hd rest ih =>
    obtain ⟨n, d⟩ := hd
    intro idx name h
    simp only [List.map_cons, List.mem_cons, not_or] at h
    obtain ⟨h1, h2⟩ := h
    simp only [arrival_probe_set]
    by_cases hs : should_scan_arrival d.seen (nowAt idx) seen_debounce = true
    · rw [if_pos hs]
      simp only [count_key, List.countP_cons]
      have hz := ih (idx + 1) name h2
      simp only [count_key] at hz
      rw [hz]
      have hne : ¬ n = name := fun hh => h1 hh.symm
      simp [hne]
    · rw [if_neg hs]
      exact ih (idx + 1) name h2

/-- Per-entry probe count of an arrival sweep over a registry with distinct
names: 1 when the entry's guard passes at its iteration's clock reading,
0 otherwise. -/
theorem arrival_probe_set_count (seen_debounce : Nat) (nowAt : Nat → Nat) :
    ∀ (devs : List (String × DeviceState)) (idx i : Nat) (hi : i < devs.length),
      (devs.map Prod.fst).Nodup →
      count_key (arrival_probe_set seen_debounce nowAt idx devs)
          (devs.get ⟨i, hi⟩).1
        = if should_scan_arrival (devs.get ⟨i, hi⟩).2.seen (nowAt (idx + i))
              seen_debounce
          then 1 else 0 := by
  intro devs
  induction devs with
  | nil => intro idx i hi; cases hi
  | cons hd rest ih =>
    obtain ⟨n, d⟩ := hd
    intro idx i hi hnd
    simp only [List.map_cons, List.nodup_cons] at hnd
    obtain ⟨hn1, hn2⟩ := hnd
    cases i with
    | zero =>
      simp only [List.get, arrival_probe_set, Nat.add_zero]
      by_cases hs : should_scan_arrival d.seen (nowAt idx) seen_debounce = true
      · rw [if_pos hs, if_pos hs]
        simp only [count_key, List.countP_cons]
        have hz := arrival_probe_set_count_zero seen_debounce nowAt rest (idx + 1) n hn1
        simp only [count_key] at hz
        rw [hz]
        simp
      · rw [if_neg hs, if_neg hs]
        exact arrival_probe_set_count_zero seen_debounce nowAt rest (idx + 1) n hn1
    | succ j =>
      have hj : j < rest.length := Nat.lt_of_succ_lt_succ hi
      have hkey : (rest.get ⟨j, hj⟩).1 ∈ rest.map Prod.fst := by
        exact List.mem_map_of_mem Prod.fst (rest.get_mem j hj)
      have hne : n ≠ (rest.get ⟨j, hj⟩).1 := by
        intro hh
        exact hn1 (hh ▸ hkey)
      simp only [List.get, arrival_probe_set]
      have hrec := ih (idx + 1) j hj hn2
      have harith : idx + 1 + j = idx + (j + 1) := by omega
      rw [harith] at hrec
      by_cases hs : should_scan_arrival d.seen (nowAt idx) seen_debounce = true
      · rw [if_pos hs]
        simp only [count_key, List.countP_cons]
        simp only [count_key] at hrec
        rw [hrec]
        simp
        exact hne
      · rw [if_neg hs]
        exact hrec

/-- C2: during a blanket arrival sweep (`Scanner::scan_arrival`,
`src/scanner.rs` lines 170–219) over a registry with distinct names, a
device that has never been seen is probed (exactly once); a device whose
time since last seen exceeds `device_seen_debounce` is probed (exactly
once); and a device seen within `device_seen_debounce` of the sweep's
clock reading is never probed. -/
theorem C2_arrival_seen_debounce (s : Scanner) (oracle : String → CommandOutput)
    (nowAt : Nat → Nat) (m2 : List (String × DeviceState)) (effects : List Effect)
    (i : Nat) (hi : i < s.device_map.length)
    (hnd : (s.device_map.map Prod.fst).Nodup)
    (hok : s.scan_arrival oracle nowAt = Except.ok (m2, effects)) :
    ((s.device_map.get ⟨i, hi⟩).2.seen = DeviceSeen.NotSeen →
      probe_count effects (s.device_map.get ⟨i, hi⟩).1 = 1) ∧
    (∀ t dur, (s.device_map.get ⟨i, hi⟩).2.seen = DeviceSeen.Seen t →
      duration_since (nowAt i) t = Except.ok dur →
      dur > s.device_seen_debounce →
      probe_count effects (s.device_map.get ⟨i, hi⟩).1 = 1) ∧
    (∀ t dur, (s.device_map.get ⟨i, hi⟩).2.seen = DeviceSeen.Seen t →
      duration_since (nowAt i) t = Except.ok dur →
      dur ≤ s.device_seen_debounce →
      probe_count effects (s.device_map.get ⟨i, hi⟩).1 = 0) := by
  have hp := scan_arrival_go_probes s.device_seen_debounce s.interscan_delay
    s.presence_timeout oracle nowAt s.device_map 0 0 m2 effects hok
  have hc := arrival_probe_set_count s.device_seen_debounce nowAt s.device_map 0 i hi hnd
  simp only [Nat.zero_add] at hc
  have hpc : probe_count effects (s.device_map.get ⟨i, hi⟩).1
      = count_key (arrival_probe_set s.device_seen_debounce nowAt 0 s.device_map)
          (s.device_map.get ⟨i, hi⟩).1 := by
    simp only [probe_count, count_key, hp]
  refine ⟨?_, ?_, ?_⟩
  · intro hseen
    rw [hpc, hc, hseen]
    simp [should_scan_arrival]
  · intro t dur hseen hdur hgt
    rw [hpc, hc, hseen]
    simp [should_scan_arrival, hdur, hgt]
  · intro t dur hseen hdur hle
    rw [hpc, hc, hseen]
    have hngt : ¬ dur > s.device_seen_debounce := by omega
    simp [should_scan_arrival, hdur, hngt]

/-- Witness for C2: the spec §8 two-device scenario under `ScanArrive` —
device `a` (never seen) probed once, device `b` (seen 5 units before the
clock reading, debounce 60) not probed. -/
theorem C2_arrival_seen_debounce_witness :
    probe_count
        [Effect.probe "a" "AA:BB:CC:DD:EE:01",
         Effect.schedule 120 (StateAnnouncement.CheckStillPresent "a"),
         Effect.announce { name := "a", mac_address := "AA:BB:CC:DD:EE:01",
                           presence := DevicePresence.Present 100 }] "a" = 1 ∧
    probe_count
        [Effect.probe "a" "AA:BB:CC:DD:EE:01",
         Effect.schedule 120 (StateAnnouncement.CheckStillPresent "a"),
         Effect.announce { name := "a", mac_address := "AA:BB:CC:DD:EE:01",
                           presence := DevicePresence.Present 100 }] "b" = 0 :=
  ⟨(C2_arrival_seen_debounce ex_scanner_two ex_oracle_present ex_now_at
      [("a", { mac_address := "AA:BB:CC:DD:EE:01", seen := DeviceSeen.Seen 1000 }),
       ("b", { mac_address := "AA:BB:CC:DD:EE:02", seen := DeviceSeen.Seen 995 })]
      [Effect.probe "a" "AA:BB:CC:DD:EE:01",
       Effect.schedule 120 (StateAnnouncement.CheckStillPresent "a"),
       Effect.announce { name := "a", mac_address := "AA:BB:CC:DD:EE:01",
                         presence := DevicePresence.Present 100 }]
      0 (by decide) (by decide) (by rfl)).1 rfl,
   ((C2_arrival_seen_debounce ex_scanner_two ex_oracle_present ex_now_at
      [("a", { mac_address := "AA:BB:CC:DD:EE:01", seen := DeviceSeen.Seen 1000 }),
       ("b", { mac_address := "AA:BB:CC:DD:EE:02", seen := DeviceSeen.Seen 995 })]
      [Effect.probe "a" "AA:BB:CC:DD:EE:01",
       Effect.schedule 120 (StateAnnouncement.CheckStillPresent "a"),
       Effect.announce { name := "a", mac_address := "AA:BB:CC:DD:EE:01",
                         presence := DevicePresence.Present 100 }]
      1 (by decide) (by decide) (by rfl)).2.2) 995 5 rfl rfl (by decide)⟩

/-- C4: every completed probe produces exactly one announcement, it is for
the probed device, and the confidence the Announcer publishes outward for
it (`announce_scan_results` in `src/manager.rs` feeding
`MqttClient::announce_device` in `src/mqtt.rs`) is 100 when the
announcement is `Present` and 0 when it is `Absent`. -/
theorem C4_one_announcement_fixed_confidence (name : String)
    (device_info : DeviceState) (oracle : String → CommandOutput)
    (presence_timeout now : Nat) (topic_path publisher_id : String)
    (d2 : DeviceState) (effects : List Effect)
    (hok : scan_device name device_info oracle presence_timeout now
      = Except.ok (d2, effects)) :
    (announce_list effects).length = 1 ∧
    ∀ a ∈ announce_list effects,
      a.name = name ∧
      ((∃ c, a.presence = DevicePresence.Present c) →
        (outward_publish topic_path publisher_id a).payload.confidence = 100) ∧
      (a.presence = DevicePresence.Absent →
        (outward_publish topic_path publisher_id a).payload.confidence = 0) := by
  unfold scan_device at hok
  cases hip : is_device_present device_info oracle with
  | error e => rw [hip] at hok; cases hok
  | ok b =>
    rw [hip] at hok
    cases b with
    | true =>
      simp only [Except.ok.injEq, Prod.mk.injEq] at hok
      obtain ⟨h1, h2⟩ := hok
      subst h2
      refine ⟨rfl, ?_⟩
      intro a ha
      simp only [announce_list, announce_device, List.mem_singleton] at ha
      subst ha
      refine ⟨rfl, fun _ => rfl, fun hc => ?_⟩
      cases hc
    | false =>
      simp only [Except.ok.injEq, Prod.mk.injEq] at hok
      obtain ⟨h1, h2⟩ := hok
      subst h2
      refine ⟨rfl, ?_⟩
      intro a ha
      simp only [announce_list, announce_device, List.mem_singleton] at ha
      subst ha
      refine ⟨rfl, fun hc => ?_, fun _ => rfl⟩
      obtain ⟨c, hc⟩ := hc
      cases hc

/-- Witness for C4: the concrete present probe of the fixture device. -/
theorem C4_one_announcement_fixed_confidence_witness :
    (announce_list
        [Effect.probe "phone" ex_mac,
         Effect.schedule 120 (StateAnnouncement.CheckStillPresent "phone"),
         announce_device "phone" ex_mac (DevicePresence.Present 100)]).length = 1 ∧
    ∀ a ∈ announce_list
        [Effect.probe "phone" ex_mac,
         Effect.schedule 120 (StateAnnouncement.CheckStillPresent "phone"),
         announce_device "phone" ex_mac (DevicePresence.Present 100)],
      a.name = "phone" ∧
      ((∃ c, a.presence = DevicePresence.Present c) →
        (outward_publish "monitor" "monitor-rs" a).payload.confidence = 100) ∧
      (a.presence = DevicePresence.Absent →
        (outward_publish "monitor" "monitor-rs" a).payload.confidence = 0) :=
  C4_one_announcement_fixed_confidence "phone" ex_state_not_seen ex_oracle_present
    120 1000 "monitor" "monitor-rs"
    { ex_state_not_seen with seen := DeviceSeen.Seen 1000 }
    [Effect.probe "phone" ex_mac,
     Effect.schedule 120 (StateAnnouncement.CheckStillPresent "phone"),
     announce_device "phone" ex_mac (DevicePresence.Present 100)]
    (by rfl)

/-- C1 (amended): on a `DeviceTrigger`, the scanner updates the
last-trigger time and runs a full blanket arrival sweep when there is no
previous trigger, when the elapsed time since the previous trigger cannot
be computed, or when it is STRICTLY GREATER than
`device_trigger_debounce`; when the elapsed time is less than or equal to
`device_trigger_debounce`, the trigger is dropped: no effects, state and
last-trigger time unchanged.  (The claim's boundary case — elapsed exactly
equal to the debounce — is dropped by the code, which compares with strict
`>`; see the counterexample theorem.) -/
theorem C1_device_trigger_debounce (s : Scanner) (last_trigger : Option Nat)
    (oracle : String → CommandOutput) (now : Nat) (nowAt : Nat → Nat)
    (m2 : List (String × DeviceState)) (effects : List Effect) :
    (s.scan_arrival oracle nowAt = Except.ok (m2, effects) →
      (last_trigger = none ∨
       (∃ t, last_trigger = some t ∧ duration_since now t = Except.error ()) ∨
       (∃ t dur, last_trigger = some t ∧ duration_since now t = Except.ok dur ∧
         dur > s.device_trigger_debounce)) →
      run_step s last_trigger (RecvResult.msg StateAnnouncement.DeviceTrigger)
          oracle now nowAt
        = StepOutcome.next { s with device_map := m2 } (some now) effects) ∧
    (∀ t dur, last_trigger = some t → duration_since now t = Except.ok dur →
      dur ≤ s.device_trigger_debounce →
      run_step s last_trigger (RecvResult.msg StateAnnouncement.DeviceTrigger)
          oracle now nowAt
        = StepOutcome.next s last_trigger []) := by
  constructor
  · intro hok hcond
    rcases hcond with hnone | ⟨t, ht, herr⟩ | ⟨t, dur, ht, hdur, hgt⟩
    · subst hnone
      simp [run_step, hok]
    · subst ht
      simp [run_step, herr, hok]
    · subst ht
      simp [run_step, hdur, hgt, hok]
  · intro t dur ht hdur hle
    subst ht
    have hngt : ¬ dur > s.device_trigger_debounce := by omega
    simp [run_step, hdur, hngt]

/-- Witness for C1: with the default 120-unit debounce, a trigger at
elapsed 121 runs the full sweep and updates the last-trigger time; a
trigger at elapsed 50 is dropped with zero probes. -/
theorem C1_device_trigger_debounce_witness :
    run_step ex_scanner (some 0) (RecvResult.msg StateAnnouncement.DeviceTrigger)
        ex_oracle_present 121 ex_now_at
      = StepOutcome.next
          { ex_scanner with device_map :=
              [("phone", { mac_address := ex_mac, seen := DeviceSeen.Seen 1000 })] }
          (some 121)
          [Effect.probe "phone" ex_mac,
           Effect.schedule 120 (StateAnnouncement.CheckStillPresent "phone"),
           Effect.announce { name := "phone", mac_address := ex_mac,
                             presence := DevicePresence.Present 100 }] ∧
    run_step ex_scanner (some 100) (RecvResult.msg StateAnnouncement.DeviceTrigger)
        ex_oracle_present 150 ex_now_at
      = StepOutcome.next ex_scanner (some 100) [] :=
  ⟨(C1_device_trigger_debounce ex_scanner (some 0) ex_oracle_present 121 ex_now_at
      [("phone", { mac_address := ex_mac, seen := DeviceSeen.Seen 1000 })]
      [Effect.probe "phone" ex_mac,
       Effect.schedule 120 (StateAnnouncement.CheckStillPresent "phone"),
       Effect.announce { name := "phone", mac_address := ex_mac,
                         presence := DevicePresence.Present 100 }]).1
    (by rfl)
    (Or.inr (Or.inr ⟨0, 121, rfl, by rfl, by decide⟩)),
   (C1_device_trigger_debounce ex_scanner (some 100) ex_oracle_present 150 ex_now_at
      [] []).2 100 50 rfl (by rfl) (by decide)⟩

/-- Counterexample to C1 as stated: with the default 120-unit trigger
debounce, a `DeviceTrigger` arriving with elapsed time EXACTLY equal to the
debounce (elapsed = 120, which is "at" the debounce, so the claim requires
an arrival sweep and a last-trigger update) is dropped by the code —
state unchanged, zero effects — because `Scanner::run` compares with
strict `duration > device_trigger_debounce`; the sweep the claim requires
would have probed the never-seen device. -/
theorem C1_counterexample :
    ex_scanner.device_trigger_debounce = 120 ∧
    duration_since 120 0 = Except.ok 120 ∧
    run_step ex_scanner (some 0) (RecvResult.msg StateAnnouncement.DeviceTrigger)
        ex_oracle_present 120 ex_now_at
      = StepOutcome.next ex_scanner (some 0) [] ∧
    (∃ m2 effects,
      ex_scanner.scan_arrival ex_oracle_present ex_now_at = Except.ok (m2, effects) ∧
      effects ≠ []) := by
  refine ⟨rfl, by rfl, by rfl,
    ⟨[("phone", { mac_address := ex_mac, seen := DeviceSeen.Seen 1000 })],
     [Effect.probe "phone" ex_mac,
      Effect.schedule 120 (StateAnnouncement.CheckStillPresent "phone"),
      Effect.announce { name := "phone", mac_address := ex_mac,
                        presence := DevicePresence.Present 100 }],
     by rfl, by simp⟩⟩

/-- Updating one key of the registry leaves every other key's lookup
unchanged. -/
theorem lookup_set_device_other (l : List (String × DeviceState))
    (target : String) (updated : DeviceState) (other : String)
    (hne : other ≠ target) :
    lookup_device (set_device l target updated) other = lookup_device l other := by
  induction l with
  | nil => rfl
  | cons hd rest ih =>
    obtain ⟨n, d⟩ := hd
    simp only [set_device]
    by_cases h : n = target
    · rw [if_pos h]
      have hno : ¬ n = other := by
        intro hh
        apply hne
        rw [← hh, h]
      simp only [lookup_device, if_neg hno]
    · rw [if_neg h]
      simp only [lookup_device]
      by_cases h2 : n = other
      · rw [if_pos h2, if_pos h2]
      · rw [if_neg h2, if_neg h2]
        exact ih

/-- C7: a `RecheckDevice` (`CheckStillPresent`) for a registered device
re-probes exactly that one device — no debounce of any kind is consulted,
whatever its last-seen state — and every other registry key's entry is
unchanged; for an unknown device the handler succeeds with no effects
(log and ignore), so the scanner loop continues. -/
theorem C7_recheck_device (s : Scanner) (device_name : String)
    (oracle : String → CommandOutput) (now : Nat) :
    (∀ device_info d2 effects,
      lookup_device s.device_map device_name = some device_info →
      scan_device device_name device_info oracle s.presence_timeout now
        = Except.ok (d2, effects) →
      s.check_still_present device_name oracle now
          = Except.ok (set_device s.device_map device_name d2, effects) ∧
      probe_list effects = [(device_name, device_info.mac_address)] ∧
      (∀ other, other ≠ device_name →
        lookup_device (set_device s.device_map device_name d2) other
          = lookup_device s.device_map other)) ∧
    (lookup_device s.device_map device_name = none →
      s.check_still_present device_name oracle now = Except.ok (s.device_map, [])) := by
  constructor
  · intro device_info d2 effects hlook hscan
    refine ⟨?_,
      (scan_device_trace device_name device_info oracle s.presence_timeout now
        d2 effects hscan).2, ?_⟩
    · simp [Scanner.check_still_present, hlook, hscan]
    · intro other hother
      exact lookup_set_device_other s.device_map device_name d2 other hother
  · intro hnone
    unfold Scanner.check_still_present
    rw [hnone]

/-- Witness for C7: re-checking device `b` of the two-device fixture with
an absent oracle probes only `b` and leaves `a` unchanged; re-checking the
unknown device `ghost` succeeds with no effects. -/
theorem C7_recheck_device_witness :
    (ex_scanner_two.check_still_present "b" ex_oracle_absent 1000
        = Except.ok
            (set_device ex_scanner_two.device_map "b"
              { mac_address := "AA:BB:CC:DD:EE:02", seen := DeviceSeen.NotSeen },
             [Effect.probe "b" "AA:BB:CC:DD:EE:02",
              Effect.announce { name := "b", mac_address := "AA:BB:CC:DD:EE:02",
                                presence := DevicePresence.Absent }]) ∧
      probe_list
          [Effect.probe "b" "AA:BB:CC:DD:EE:02",
           Effect.announce { name := "b", mac_address := "AA:BB:CC:DD:EE:02",
                             presence := DevicePresence.Absent }]
        = [("b", "AA:BB:CC:DD:EE:02")] ∧
      (∀ other, other ≠ "b" →
        lookup_device
            (set_device ex_scanner_two.device_map "b"
              { mac_address := "AA:BB:CC:DD:EE:02", seen := DeviceSeen.NotSeen })
            other
          = lookup_device ex_scanner_two.device_map other)) ∧
    ex_scanner_two.check_still_present "ghost" ex_oracle_absent 1000
      = Except.ok (ex_scanner_two.device_map, []) :=
  ⟨(C7_recheck_device ex_scanner_two "b" ex_oracle_absent 1000).1
      { mac_address := "AA:BB:CC:DD:EE:02", seen := DeviceSeen.Seen 995 }
      { mac_address := "AA:BB:CC:DD:EE:02", seen := DeviceSeen.NotSeen }
      [Effect.probe "b" "AA:BB:CC:DD:EE:02",
       Effect.announce { name := "b", mac_address := "AA:BB:CC:DD:EE:02",
                         presence := DevicePresence.Absent }]
      (by rfl) (by rfl),
   (C7_recheck_device ex_scanner_two "ghost" ex_oracle_absent 1000).2 (by rfl)⟩

/-- C8: an oracle execution error (non-zero exit) propagates all the way
out: it makes `is_device_present` fail, `scan_device` fail, an arrival
sweep that reaches the device stop and fail, the `run` iteration for each
command kind abort with the contextualised error, and the whole scanner
loop return that error with the rest of its input unprocessed. -/
theorem C8_probe_failure_aborts_loop (s : Scanner) (last_trigger : Option Nat)
    (oracle : String → CommandOutput) (now : Nat) (nowAt : Nat → Nat)
    (device_info : DeviceState) (name : String) :
    ((oracle device_info.mac_address).success = false →
      is_device_present device_info oracle = Except.error "Command exited non-zero") ∧
    (∀ e presence_timeout now2,
      is_device_present device_info oracle = Except.error e →
      scan_device name device_info oracle presence_timeout now2 = Except.error e) ∧
    (∀ e idx scan_count rest,
      should_scan_arrival device_info.seen (nowAt idx) s.device_seen_debounce = true →
      scan_device name device_info oracle s.presence_timeout (nowAt idx)
        = Except.error e →
      scan_arrival_go s.device_seen_debounce s.interscan_delay s.presence_timeout
          oracle nowAt idx scan_count ((name, device_info) :: rest)
        = Except.error e) ∧
    (∀ e, s.scan_arrival oracle nowAt = Except.error e →
      run_step s last_trigger (RecvResult.msg StateAnnouncement.ScanArrive)
          oracle now nowAt
        = StepOutcome.abort (with_context "Failed to scan arrivals" e)) ∧
    (∀ e, s.scan_departure oracle nowAt = Except.error e →
      run_step s last_trigger (RecvResult.msg StateAnnouncement.ScanDepart)
          oracle now nowAt
        = StepOutcome.abort (with_context "Failed to scan departure" e)) ∧
    (∀ e, s.scan_arrival oracle nowAt = Except.error e →
      run_step s none (RecvResult.msg StateAnnouncement.DeviceTrigger)
          oracle now nowAt
        = StepOutcome.abort (with_context "Failed to scan for device trigger" e)) ∧
    (∀ e device_name,
      s.check_still_present device_name oracle now = Except.error e →
      run_step s last_trigger
          (RecvResult.msg (StateAnnouncement.CheckStillPresent device_name))
          oracle now nowAt
        = StepOutcome.abort (with_context "Failed to check presence" e)) ∧
    (∀ err recv rest,
      run_step s last_trigger recv oracle now nowAt = StepOutcome.abort err →
      run_loop oracle s last_trigger ((recv, now, nowAt) :: rest)
        = Except.error err) := by
  refine ⟨?_, ?_, ?_, ?_, ?_, ?_, ?_, ?_⟩
  · intro h
    simp [is_device_present, h]
  · intro e presence_timeout now2 h
    simp [scan_device, h]
  · intro e idx scan_count rest hscan herr
    simp only [scan_arrival_go]
    rw [if_pos hscan, herr]
  · intro e h
    simp [run_step, h]
  · intro e h
    simp [run_step, h]
  · intro e h
    simp [run_step, h]
  · intro e device_name h
    simp [run_step, h]
  · intro err recv rest h
    simp [run_loop, h]

/-- Witness for C8: with an always-failing oracle, a `ScanArrive` followed
by further queued commands makes the whole loop return the contextualised
probe error, leaving the rest of the schedule unprocessed. -/
theorem C8_probe_failure_aborts_loop_witness :
    run_loop ex_oracle_fail ex_scanner none
        [(RecvResult.msg StateAnnouncement.ScanArrive, 1000, ex_now_at),
         (RecvResult.msg StateAnnouncement.ScanDepart, 1001, ex_now_at)]
      = Except.error "Failed to scan arrivals: Command exited non-zero" :=
  (C8_probe_failure_aborts_loop ex_scanner none ex_oracle_fail 1000 ex_now_at
      ex_state_not_seen "phone").2.2.2.2.2.2.2
    "Failed to scan arrivals: Command exited non-zero"
    (RecvResult.msg StateAnnouncement.ScanArrive)
    [(RecvResult.msg StateAnnouncement.ScanDepart, 1001, ex_now_at)]
    (by rfl)

/-- C10: both elapsed-time computations fail open when the system clock
moved backwards: a `DeviceTrigger` whose elapsed-since-last-trigger cannot
be computed still updates the last-trigger time and runs the full arrival
sweep, and a device whose duration-since-last-seen cannot be computed is
still probed during an arrival sweep. -/
theorem C10_clock_backwards_fails_open (s : Scanner)
    (oracle : String → CommandOutput) (now : Nat) (nowAt : Nat → Nat)
    (m2 : List (String × DeviceState)) (effects : List Effect) (i : Nat) :
    (∀ t, duration_since now t = Except.error () →
      s.scan_arrival oracle nowAt = Except.ok (m2, effects) →
      run_step s (some t) (RecvResult.msg StateAnnouncement.DeviceTrigger)
          oracle now nowAt
        = StepOutcome.next { s with device_map := m2 } (some now) effects) ∧
    (∀ hi : i < s.device_map.length, ∀ t,
      (s.device_map.get ⟨i, hi⟩).2.seen = DeviceSeen.Seen t →
      duration_since (nowAt i) t = Except.error () →
      (s.device_map.map Prod.fst).Nodup →
      s.scan_arrival oracle nowAt = Except.ok (m2, effects) →
      probe_count effects (s.device_map.get ⟨i, hi⟩).1 = 1) := by
  constructor
  · intro t herr hok
    simp [run_step, herr, hok]
  · intro hi t hseen herr hnd hok
    have hp := scan_arrival_go_probes s.device_seen_debounce s.interscan_delay
      s.presence_timeout oracle nowAt s.device_map 0 0 m2 effects hok
    have hc := arrival_probe_set_count s.device_seen_debounce nowAt s.device_map 0 i hi hnd
    simp only [Nat.zero_add] at hc
    have hpc : probe_count effects (s.device_map.get ⟨i, hi⟩).1
        = count_key (arrival_probe_set s.device_seen_debounce nowAt 0 s.device_map)
            (s.device_map.get ⟨i, hi⟩).1 := by
      simp only [probe_count, count_key, hp]
    rw [hpc, hc, hseen]
    simp [should_scan_arrival, herr]

/-- Witness for C10: a last trigger recorded at time 2000 with the clock
now reading 1000 still yields a full sweep, and a device last seen at time
2000 probed by a sweep whose clock reads 1000 is still probed. -/
theorem C10_clock_backwards_fails_open_witness :
    run_step ex_scanner_future (some 2000)
        (RecvResult.msg StateAnnouncement.DeviceTrigger) ex_oracle_present 1000 ex_now_at
      = StepOutcome.next
          { ex_scanner_future with device_map :=
              [("c", { mac_address := "AA:BB:CC:DD:EE:03", seen := DeviceSeen.Seen 1000 })] }
          (some 1000)
          [Effect.probe "c" "AA:BB:CC:DD:EE:03",
           Effect.schedule 120 (StateAnnouncement.CheckStillPresent "c"),
           Effect.announce { name := "c", mac_address := "AA:BB:CC:DD:EE:03",
                             presence := DevicePresence.Present 100 }] ∧
    probe_count
        [Effect.probe "c" "AA:BB:CC:DD:EE:03",
         Effect.schedule 120 (StateAnnouncement.CheckStillPresent "c"),
         Effect.announce { name := "c", mac_address := "AA:BB:CC:DD:EE:03",
                           presence := DevicePresence.Present 100 }] "c" = 1 :=
  ⟨(C10_clock_backwards_fails_open ex_scanner_future ex_oracle_present 1000 ex_now_at
      [("c", { mac_address := "AA:BB:CC:DD:EE:03", seen := DeviceSeen.Seen 1000 })]
      [Effect.probe "c" "AA:BB:CC:DD:EE:03",
       Effect.schedule 120 (StateAnnouncement.CheckStillPresent "c"),
       Effect.announce { name := "c", mac_address := "AA:BB:CC:DD:EE:03",
                         presence := DevicePresence.Present 100 }] 0).1
    2000 (by rfl) (by rfl),
   ((C10_clock_backwards_fails_open ex_scanner_future ex_oracle_present 1000 ex_now_at
      [("c", { mac_address := "AA:BB:CC:DD:EE:03", seen := DeviceSeen.Seen 1000 })]
      [Effect.probe "c" "AA:BB:CC:DD:EE:03",
       Effect.schedule 120 (StateAnnouncement.CheckStillPresent "c"),
       Effect.announce { name := "c", mac_address := "AA:BB:CC:DD:EE:03",
                         presence := DevicePresence.Present 100 }] 0).2
    (by decide) 2000 rfl (by rfl) (by decide) (by rfl))⟩
